import Mathlib

set_option linter.unusedVariables false
set_option maxRecDepth 8192

/-
Shallow embedding of tensorflow/lite/python/convert.py (TFLite converter
marshalling layer): request building (build_toco_flags,
build_toco_convert_protos, toco_convert_graph_def), dispatch
(toco_convert_protos) and the SavedModel entry point (convert_saved_model).
Python dynamic values are translated as follows: optional parameters whose
falsy values coincide with "absent" become Option or empty lists/strings;
bytes/str payloads that are only plumbed, never inspected, become String;
quantization statistics (Python floats that are only copied, never computed
with) become Rat; raised exceptions become an Except error value.
-/

/- ===== types_pb2 / dtypes ===== -/

/-- Element types of tensorflow/lite/toco/types.proto used by this module. -/
inductive TfliteType where
  | FLOAT
  | QUANTIZED_UINT8
  | INT8
  | INT16
  | INT32
  | INT64
  | STRING
  | BOOL
  | COMPLEX64
  | FLOAT16
  | FLOAT64
deriving DecidableEq, Repr

/-- TensorFlow host-side dtypes that reach this module. -/
inductive DType where
  | float32
  | float16
  | float64
  | int32
  | int64
  | int16
  | uint8
  | int8
  | string
  | boolean
  | complex64
deriving DecidableEq, Repr

/-- Modelled from the spec: util.convert_dtype_to_tflite_type lives in
tensorflow/lite/python/util.py, which is not part of the reviewed source.
It maps each supported TensorFlow dtype to the corresponding element type
of types.proto (quantized input layer types being uint8 and int8, per the
spec's quantization invariant). -/
def convert_dtype_to_tflite_type : DType → TfliteType
  | DType.float32 => TfliteType.FLOAT
  | DType.float16 => TfliteType.FLOAT16
  | DType.float64 => TfliteType.FLOAT64
  | DType.int32 => TfliteType.INT32
  | DType.int64 => TfliteType.INT64
  | DType.int16 => TfliteType.INT16
  | DType.uint8 => TfliteType.QUANTIZED_UINT8
  | DType.int8 => TfliteType.INT8
  | DType.string => TfliteType.STRING
  | DType.boolean => TfliteType.BOOL
  | DType.complex64 => TfliteType.COMPLEX64

/-- Modelled from the spec: util.get_tensor_name is in
tensorflow/lite/python/util.py, not in the reviewed source. It derives the
array name from the graph-node naming convention, stripping the trailing
output-index suffix introduced by a colon. -/
def get_tensor_name (name : String) : String :=
  (name.takeWhile (fun c => c ≠ ':'))

/- ===== lite_constants file formats ===== -/

/-- File formats of toco_flags.proto referenced through lite_constants. -/
inductive FileFormat where
  | FILE_FORMAT_UNKNOWN
  | TENSORFLOW_GRAPHDEF
  | TFLITE
  | GRAPHVIZ_DOT
deriving DecidableEq, Repr

/- ===== OpsSet (convert.py lines 80-118) ===== -/

/-- Enum class defining the sets of ops available to generate TFLite models
(convert.py lines 80-110). -/
inductive OpsSet where
  | TFLITE_BUILTINS
  | SELECT_TF_OPS
  | TFLITE_BUILTINS_INT8
  | EXPERIMENTAL_TFLITE_BUILTINS_ACTIVATIONS_INT16_WEIGHTS_INT8
deriving DecidableEq, Repr

/- ===== errors ===== -/

/-- Exceptions that escape the embedded functions: ConverterError raised by
the dispatcher, ValueError and IndexError raised while building requests,
and the TypeError raised by six.ensure_binary on a None payload. -/
inductive PyError where
  | converterError (msg : String)
  | valueError (msg : String)
  | indexError
  | typeError
deriving DecidableEq, Repr

/- ===== proto objects ===== -/

/-- Shape proto carried by each input array: a dims list plus the
unknown_rank flag (model_flags.proto). Proto defaults: empty dims,
unknown_rank false. -/
structure ShapeProto where
  dims : List Int := []
  unknown_rank : Bool := false
deriving DecidableEq, Repr

/-- One entry of ModelFlags.input_arrays. Unset proto fields are modelled
as none / defaults. -/
structure InputArray where
  name : String := ""
  data_type : Option TfliteType := none
  mean_value : Option Rat := none
  std_value : Option Rat := none
  shape : ShapeProto := {}
deriving DecidableEq, Repr

/-- The ModelFlags proto fields written by this module. -/
structure ModelFlags where
  change_concat_input_ranges : Bool := false
  input_arrays : List InputArray := []
  output_arrays : List String := []
  allow_nonexistent_arrays : Bool := false
  saved_model_dir : String := ""
  saved_model_version : Nat := 0
  saved_model_tags : List String := []
  saved_model_exported_names : List String := []
deriving DecidableEq, Repr

/-- The TocoFlags proto fields written by build_toco_flags. -/
structure TocoFlags where
  input_format : FileFormat := FileFormat.FILE_FORMAT_UNKNOWN
  output_format : FileFormat := FileFormat.FILE_FORMAT_UNKNOWN
  inference_type : TfliteType := TfliteType.FLOAT
  inference_input_type : TfliteType := TfliteType.FLOAT
  drop_control_dependency : Bool := false
  reorder_across_fake_quant : Bool := false
  allow_custom_ops : Bool := false
  custom_opdefs : List String := []
  select_user_tf_ops : List String := []
  post_training_quantize : Bool := false
  quantize_to_float16 : Bool := false
  default_ranges_min : Int := 0
  default_ranges_max : Int := 0
  dump_graphviz_dir : String := ""
  dump_graphviz_include_video : Bool := false
  conversion_summary_dir : String := ""
  enable_select_tf_ops : Bool := false
  force_select_tf_ops : Bool := false
  operators_versions : List (Int × Int) := []
deriving DecidableEq, Repr

/- ===== _requires_input_stats (convert.py lines 44-53) ===== -/

/-- The quantized inference types list (convert.py line 44). -/
def quantized_inference_types : List TfliteType :=
  [TfliteType.QUANTIZED_UINT8, TfliteType.INT8]

/-- convert.py lines 50-53: input quantization stats are required when the
inference type or the inference input type is quantized and post-training
quantization is off. -/
def requires_input_stats (toco : TocoFlags) : Bool :=
  (quantized_inference_types.contains toco.inference_type ||
    quantized_inference_types.contains toco.inference_input_type) &&
  !toco.post_training_quantize

/- ===== build_toco_flags (convert.py lines 309-365) ===== -/

/-- The keyword parameters of build_toco_flags with their Python defaults
(convert.py lines 309-326). -/
structure TocoParams where
  inference_type : DType := DType.float32
  inference_input_type : Option DType := none
  input_format : FileFormat := FileFormat.TENSORFLOW_GRAPHDEF
  output_format : FileFormat := FileFormat.TFLITE
  default_ranges_stats : Option (Int × Int) := none
  drop_control_dependency : Bool := true
  reorder_across_fake_quant : Bool := false
  allow_custom_ops : Bool := false
  custom_opdefs : List String := []
  post_training_quantize : Bool := false
  quantize_to_float16 : Bool := false
  dump_graphviz_dir : Option String := none
  dump_graphviz_video : Bool := false
  target_ops : List OpsSet := []
  conversion_summary_dir : Option String := none
  select_user_tf_ops : List String := []
  operators_versions : List (Int × Int) := []
deriving DecidableEq, Repr

/-- convert.py lines 309-365: build the TocoFlags proto from the keyword
parameters. Python falsy guards on None/empty values are represented by
Option matches and emptiness tests. -/
def build_toco_flags (p : TocoParams) : TocoFlags :=
  let inference_type := convert_dtype_to_tflite_type p.inference_type
  let inference_input_type :=
    match p.inference_input_type with
    | some t => convert_dtype_to_tflite_type t
    | none => inference_type
  { input_format := p.input_format
    output_format := p.output_format
    inference_type := inference_type
    inference_input_type := inference_input_type
    drop_control_dependency := p.drop_control_dependency
    reorder_across_fake_quant := p.reorder_across_fake_quant
    allow_custom_ops := p.allow_custom_ops
    custom_opdefs := if p.custom_opdefs.isEmpty then [] else p.custom_opdefs
    select_user_tf_ops :=
      if p.select_user_tf_ops.isEmpty then [] else p.select_user_tf_ops
    post_training_quantize := p.post_training_quantize
    quantize_to_float16 := p.quantize_to_float16
    default_ranges_min :=
      match p.default_ranges_stats with
      | some r => r.1
      | none => 0
    default_ranges_max :=
      match p.default_ranges_stats with
      | some r => r.2
      | none => 0
    dump_graphviz_dir :=
      match p.dump_graphviz_dir with
      | some d => d
      | none => ""
    dump_graphviz_include_video := p.dump_graphviz_video
    conversion_summary_dir :=
      match p.conversion_summary_dir with
      | some d => d
      | none => ""
    enable_select_tf_ops :=
      if p.target_ops.isEmpty then false
      else p.target_ops.contains OpsSet.SELECT_TF_OPS
    force_select_tf_ops :=
      if p.target_ops.isEmpty then false
      else
        (p.target_ops.contains OpsSet.SELECT_TF_OPS &&
          p.target_ops.all (fun o => o == OpsSet.SELECT_TF_OPS))
    operators_versions := p.operators_versions }

/- ===== build_toco_convert_protos (convert.py lines 368-545) ===== -/

/-- A tensor shape as seen by this module: none is unknown rank, otherwise
an ordered list of dimensions where none is an unset/unknown dimension. -/
abbrev TensorShape := Option (List (Option Int))

/-- An input tensor: only .name, .dtype and .shape are read by this module. -/
structure InputTensor where
  name : String
  dtype : DType
  shape : TensorShape
deriving DecidableEq, Repr

/-- An output tensor: only .name is read by this module. -/
structure OutTensor where
  name : String
deriving DecidableEq, Repr

/-- The extra keyword parameters of build_toco_convert_protos beyond those
it forwards to build_toco_flags, with their Python defaults (convert.py
lines 368-395). Falsy string defaults (None) are modelled as "". -/
structure ConvertParams extends TocoParams where
  input_shapes : Option (List TensorShape) := none
  quantized_input_stats : Option (List (Rat × Rat)) := none
  change_concat_input_ranges : Bool := false
  allow_nonexistent_arrays : Bool := false
  debug_info : Option String := none
  saved_model_dir : String := ""
  saved_model_version : Nat := 0
  saved_model_tags : List String := []
  saved_model_exported_names : List String := []
deriving DecidableEq, Repr

/-- Python truthiness of the quantized_input_stats argument: None and the
empty list are falsy (convert.py line 507). -/
def truthy_stats : Option (List (Rat × Rat)) → Bool
  | none => false
  | some l => !l.isEmpty

/-- convert.py lines 507-508: inside the per-input loop, the (mean, std)
pair is copied from quantized_input_stats at the loop index only when the
stats are required and the argument is truthy; indexing past the end of
the list is a Python IndexError. -/
def stats_for (toco : TocoFlags) (p : ConvertParams) (idx : Nat) :
    Except PyError (Option (Rat × Rat)) :=
  if requires_input_stats toco && truthy_stats p.quantized_input_stats then
    match (p.quantized_input_stats.getD []).get? idx with
    | some pr => Except.ok (some pr)
    | none => Except.error PyError.indexError
  else
    Except.ok none

/-- convert.py lines 510-513: the effective shape of the input at idx is
the tensor's own shape when input_shapes is None, else input_shapes[idx]
(a Python IndexError when the list is too short). -/
def shape_for (p : ConvertParams) (idx : Nat) (t : InputTensor) :
    Except PyError TensorShape :=
  match p.input_shapes with
  | none => Except.ok t.shape
  | some l =>
    match l.get? idx with
    | some s => Except.ok s
    | none => Except.error PyError.indexError

/-- convert.py lines 515-527: known rank produces a dims list with every
unset dimension replaced by -1 and unknown_rank false; unknown rank sets
unknown_rank true and leaves dims at the proto default (empty). -/
def shape_proto_of : TensorShape → ShapeProto
  | none => { dims := [], unknown_rank := true }
  | some ds => { dims := ds.map (fun d => d.getD (-1)), unknown_rank := false }

/-- The body of the per-input loop of build_toco_convert_protos
(convert.py lines 498-527) for the input tensor at position idx. -/
def buildInputArray (toco : TocoFlags) (p : ConvertParams) (idx : Nat)
    (t : InputTensor) : Except PyError InputArray :=
  let name := if p.saved_model_dir ≠ "" then t.name else get_tensor_name t.name
  let data_type := convert_dtype_to_tflite_type t.dtype
  match stats_for toco p idx with
  | Except.error e => Except.error e
  | Except.ok stats =>
    match shape_for p idx t with
    | Except.error e => Except.error e
    | Except.ok shape =>
      Except.ok
        { name := name
          data_type := some data_type
          mean_value := stats.map (fun pr => pr.1)
          std_value := stats.map (fun pr => pr.2)
          shape := shape_proto_of shape }

/-- The per-input loop of build_toco_convert_protos (convert.py lines
498-527), indexed as by Python's enumerate. -/
def buildInputArrays (toco : TocoFlags) (p : ConvertParams) :
    Nat → List InputTensor → Except PyError (List InputArray)
  | _, [] => Except.ok []
  | idx, t :: rest =>
    match buildInputArray toco p idx t with
    | Except.error e => Except.error e
    | Except.ok arr =>
      match buildInputArrays toco p (idx + 1) rest with
      | Except.error e => Except.error e
      | Except.ok arrs => Except.ok (arr :: arrs)

/-- convert.py lines 368-545: build the ModelFlags and TocoFlags protos
plus the pass-through debug info from the input and output tensors and the
keyword parameters. Python falsy guards on the saved-model fields are
identities under the ""/[] defaults and are written as plain assignments. -/
def build_toco_convert_protos (input_tensors : List InputTensor)
    (output_tensors : List OutTensor) (p : ConvertParams) :
    Except PyError (ModelFlags × TocoFlags × Option String) :=
  let toco := build_toco_flags p.toTocoParams
  match buildInputArrays toco p 0 input_tensors with
  | Except.error e => Except.error e
  | Except.ok arrs =>
    let model : ModelFlags :=
      { change_concat_input_ranges := p.change_concat_input_ranges
        input_arrays := arrs
        output_arrays := output_tensors.map (fun o =>
          if p.saved_model_dir ≠ "" then o.name else get_tensor_name o.name)
        allow_nonexistent_arrays := p.allow_nonexistent_arrays
        saved_model_dir := p.saved_model_dir
        saved_model_version := p.saved_model_version
        saved_model_tags := p.saved_model_tags
        saved_model_exported_names := p.saved_model_exported_names }
    Except.ok (model, toco, p.debug_info)

/- ===== toco_convert_protos dispatch (convert.py lines 180-306) ===== -/

/-- The five temporary files created by the out-of-process path of
toco_convert_protos (convert.py lines 240-268): the toco-flags, the
model-flags, the input-data, the debug-info and the reserved output file. -/
inductive TmpFile where
  | tocoF
  | modelF
  | inputF
  | debugF
  | outputF
deriving DecidableEq, Repr

deriving instance DecidableEq for Except

/-- The per-call environment read by toco_convert_protos: the module-level
binary path (convert.py lines 58-65, "" when unset), the dispatch-time
result of distutils.spawn.find_executable (line 222), the outcome of the
in-process wrap_toco.wrapped_toco_convert call (lines 214-217, an exception
message or returned bytes), and the spawned process's exit code, captured
combined stdout/stderr and the bytes it wrote to the output file (lines
283-293). -/
structure DispatchEnv where
  toco_from_proto_bin : String
  find_executable_ok : Bool
  wrapped_toco_convert : Except String String
  proc_exitcode : Int
  proc_stdout : Option String
  output_file_content : String
deriving DecidableEq, Repr

/-- convert.py lines 68-77: None becomes the empty text; in the String
model the byte-decoding branch is the identity. -/
def try_convert_to_unicode : Option String → String
  | none => ""
  | some s => s

/-- convert.py line 223-232: the guidance message raised when the binary is
not found on the search path at dispatch time. -/
def toco_missing_binary_msg : String :=
  "Could not find toco_from_protos binary, make sure\n" ++
  "your virtualenv bin directory or pip local bin directory " ++
  "is in your path.\n" ++
  "In particular, if you have installed TensorFlow with --user, make sure " ++
  "you\nadd the install directory to your path.\n\nFor example:\n" ++
  "Linux: export PATH=$PATH:~/.local/bin/\n" ++
  "Mac: export PATH=$PATH:~/Library/Python/<version#>/bin\n\n" ++
  "Alternative, use virtualenv."

/-- convert.py lines 300-302: the filenames passed to os.unlink in the
finally block. The debug-info file is absent from this list. -/
def cleanup_filenames : List TmpFile :=
  [TmpFile.tocoF, TmpFile.inputF, TmpFile.modelF, TmpFile.outputF]

/-- convert.py lines 298-306: unlink each listed file, swallowing OSError
and TypeError; the files left behind are those created but not listed. -/
def run_cleanup (created : List TmpFile) : List TmpFile :=
  created.filter (fun f => !cleanup_filenames.contains f)

/-- Everything observable about one toco_convert_protos call: the returned
bytes or raised error, whether the in-process backend was used, which
temporary files the call created, and which of them still exist when the
call returns or raises. -/
structure DispatchOutcome where
  result : Except PyError String
  usedInProcess : Bool
  created : List TmpFile
  remaining : List TmpFile
deriving DecidableEq, Repr

/-- convert.py lines 180-306. The in-process path (lines 212-220) runs when
the MLIR converter is enabled or no binary path is configured, wrapping any
backend exception into a ConverterError with the original message. The
out-of-process path first checks find_executable (line 222), then creates
the four input temp files and writes them (lines 240-264; ensure_binary on
a None input raises TypeError after the four files exist), reserves the
output file (lines 267-268), runs the subprocess and reads the output file
on exit 0 or raises ConverterError with the captured combined output
otherwise (lines 283-297); the finally block (lines 298-306) then removes
the files named in cleanup_filenames. -/
def toco_convert_protos (env : DispatchEnv)
    (model_flags_str toco_flags_str : String)
    (input_data_str debug_info_str : Option String)
    (enable_mlir_converter : Bool) : DispatchOutcome :=
  if enable_mlir_converter = true ∨ env.toco_from_proto_bin = "" then
    { result :=
        match env.wrapped_toco_convert with
        | Except.ok b => Except.ok b
        | Except.error e => Except.error (PyError.converterError e)
      usedInProcess := true
      created := []
      remaining := [] }
  else if env.find_executable_ok = false then
    { result := Except.error (PyError.converterError toco_missing_binary_msg)
      usedInProcess := false
      created := []
      remaining := [] }
  else
    match input_data_str with
    | none =>
      let created := [TmpFile.tocoF, TmpFile.modelF, TmpFile.inputF,
        TmpFile.debugF]
      { result := Except.error PyError.typeError
        usedInProcess := false
        created := created
        remaining := run_cleanup created }
    | some _ =>
      let created := [TmpFile.tocoF, TmpFile.modelF, TmpFile.inputF,
        TmpFile.debugF, TmpFile.outputF]
      if env.proc_exitcode = 0 then
        { result := Except.ok env.output_file_content
          usedInProcess := false
          created := created
          remaining := run_cleanup created }
      else
        { result := Except.error (PyError.converterError
            ("See console for info.\n" ++
              (try_convert_to_unicode env.proc_stdout ++
                ("\n" ++ (try_convert_to_unicode none ++ "\n")))))
          usedInProcess := false
          created := created
          remaining := run_cleanup created }

/-- Modelled from the spec: protobuf SerializeToString is not part of the
reviewed source; the dispatcher treats the serialized payload as opaque
bytes, so serialization is modelled as a concrete uninterpreted rendering. -/
def serializeModelFlags (m : ModelFlags) : String := reprStr m

/-- Modelled from the spec: protobuf SerializeToString for TocoFlags, as
for serializeModelFlags. -/
def serializeTocoFlags (t : TocoFlags) : String := reprStr t

/- ===== toco_convert_graph_def (convert.py lines 548-603) ===== -/

/-- convert.py lines 586-589: the message of the ValueError raised when
quantization stats are required but the flag is absent or falsy. -/
def quantized_stats_required_msg : String :=
  "The `quantized_input_stats` flag must be defined when either " ++
  "`inference_type` flag or `inference_input_type` flag is set to " ++
  "tf.int8 or tf.uint8."

/-- The per-entry loop of toco_convert_graph_def (convert.py lines
581-593): for each (name, shape) pair, check the quantization-stats
requirement against the kwargs, copy the (mean, std) pair at the loop
index when required, and build the input array with the given dims; the
data type and unknown_rank fields keep their proto defaults. -/
def addInputArraysWithShape (toco : TocoFlags)
    (qstats : Option (List (Rat × Rat))) :
    Nat → List (String × List Int) → Except PyError (List InputArray)
  | _, [] => Except.ok []
  | idx, (name, shape) :: rest =>
    match
      (if requires_input_stats toco then
        match qstats with
        | none => Except.error (PyError.valueError quantized_stats_required_msg)
        | some [] =>
          Except.error (PyError.valueError quantized_stats_required_msg)
        | some l =>
          match l.get? idx with
          | some pr => Except.ok (some pr)
          | none => Except.error PyError.indexError
      else (Except.ok none : Except PyError (Option (Rat × Rat)))) with
    | Except.error e => Except.error e
    | Except.ok stats =>
      match addInputArraysWithShape toco qstats (idx + 1) rest with
      | Except.error e => Except.error e
      | Except.ok arrs =>
        Except.ok
          ({ name := name
             data_type := none
             mean_value := stats.map (fun pr => pr.1)
             std_value := stats.map (fun pr => pr.2)
             shape := { dims := shape, unknown_rank := false } } :: arrs)

/-- convert.py lines 548-603: build the request protos from name/shape
pairs for graphs that cannot be loaded, then dispatch through
toco_convert_protos. -/
def toco_convert_graph_def (env : DispatchEnv) (input_data : String)
    (input_arrays_with_shape : List (String × List Int))
    (output_arrays : List String) (enable_mlir_converter : Bool)
    (p : ConvertParams) : Except PyError String :=
  match build_toco_convert_protos [] [] p with
  | Except.error e => Except.error e
  | Except.ok (model_flags, toco_flags, _) =>
    match
      addInputArraysWithShape toco_flags p.quantized_input_stats 0
        input_arrays_with_shape with
    | Except.error e => Except.error e
    | Except.ok arrs =>
      let model_flags :=
        { model_flags with
          input_arrays := model_flags.input_arrays ++ arrs
          output_arrays := model_flags.output_arrays ++ output_arrays }
      (toco_convert_protos env (serializeModelFlags model_flags)
        (serializeTocoFlags toco_flags) (some input_data) none
        enable_mlir_converter).result

/- ===== convert_saved_model (convert.py lines 643-664) ===== -/

/-- The saved-model keyword parameters of convert_saved_model with their
Python defaults (convert.py lines 643-647); None locators are "". -/
structure SavedModelParams where
  saved_model_dir : String := ""
  saved_model_version : Nat := 0
  saved_model_tags : List String := []
  saved_model_exported_names : List String := []
deriving DecidableEq, Repr

/-- convert.py lines 643-664: build ModelFlags from the saved-model
locator, TocoFlags from the remaining kwargs, and dispatch with a None
input payload and enable_mlir_converter hard-coded to True. -/
def convert_saved_model (env : DispatchEnv) (s : SavedModelParams)
    (p : TocoParams) : DispatchOutcome :=
  let model_flags : ModelFlags :=
    { saved_model_dir := s.saved_model_dir
      saved_model_version := s.saved_model_version
      saved_model_tags := s.saved_model_tags
      saved_model_exported_names := s.saved_model_exported_names }
  let toco_flags := build_toco_flags p
  toco_convert_protos env (serializeModelFlags model_flags)
    (serializeTocoFlags toco_flags) none none true

/- ===== keyword-argument call model for build_toco_flags ===== -/

/-- A Python keyword-argument value of any of the types accepted by the
recognized parameters of build_toco_flags. -/
inductive KwVal where
  | dt (d : DType)
  | odt (d : Option DType)
  | fmt (f : FileFormat)
  | ranges (r : Option (Int × Int))
  | b (v : Bool)
  | strs (l : List String)
  | ostr (s : Option String)
  | ops (l : List OpsSet)
  | opvers (l : List (Int × Int))
deriving DecidableEq, Repr

/-- The names of the keyword parameters build_toco_flags binds (convert.py
lines 309-325); every other keyword lands in the discarded catch-all of
line 326. -/
def recognized_option_names : List String :=
  ["inference_type", "inference_input_type", "input_format", "output_format",
   "default_ranges_stats", "drop_control_dependency",
   "reorder_across_fake_quant", "allow_custom_ops", "custom_opdefs",
   "post_training_quantize", "quantize_to_float16", "dump_graphviz_dir",
   "dump_graphviz_video", "target_ops", "conversion_summary_dir",
   "select_user_tf_ops", "operators_versions"]

/-- Python keyword binding for one argument of a build_toco_flags call: a
recognized name (with a value of the parameter's type) overrides the
corresponding parameter; any other name is collected by the catch-all of
convert.py line 326 and has no effect. -/
def applyKw (p : TocoParams) (kv : String × KwVal) : TocoParams :=
  if kv.1 = "inference_type" then
    match kv.2 with
    | KwVal.dt d => { p with inference_type := d }
    | _ => p
  else if kv.1 = "inference_input_type" then
    match kv.2 with
    | KwVal.odt d => { p with inference_input_type := d }
    | _ => p
  else if kv.1 = "input_format" then
    match kv.2 with
    | KwVal.fmt f => { p with input_format := f }
    | _ => p
  else if kv.1 = "output_format" then
    match kv.2 with
    | KwVal.fmt f => { p with output_format := f }
    | _ => p
  else if kv.1 = "default_ranges_stats" then
    match kv.2 with
    | KwVal.ranges r => { p with default_ranges_stats := r }
    | _ => p
  else if kv.1 = "drop_control_dependency" then
    match kv.2 with
    | KwVal.b v => { p with drop_control_dependency := v }
    | _ => p
  else if kv.1 = "reorder_across_fake_quant" then
    match kv.2 with
    | KwVal.b v => { p with reorder_across_fake_quant := v }
    | _ => p
  else if kv.1 = "allow_custom_ops" then
    match kv.2 with
    | KwVal.b v => { p with allow_custom_ops := v }
    | _ => p
  else if kv.1 = "custom_opdefs" then
    match kv.2 with
    | KwVal.strs l => { p with custom_opdefs := l }
    | _ => p
  else if kv.1 = "post_training_quantize" then
    match kv.2 with
    | KwVal.b v => { p with post_training_quantize := v }
    | _ => p
  else if kv.1 = "quantize_to_float16" then
    match kv.2 with
    | KwVal.b v => { p with quantize_to_float16 := v }
    | _ => p
  else if kv.1 = "dump_graphviz_dir" then
    match kv.2 with
    | KwVal.ostr s => { p with dump_graphviz_dir := s }
    | _ => p
  else if kv.1 = "dump_graphviz_video" then
    match kv.2 with
    | KwVal.b v => { p with dump_graphviz_video := v }
    | _ => p
  else if kv.1 = "target_ops" then
    match kv.2 with
    | KwVal.ops l => { p with target_ops := l }
    | _ => p
  else if kv.1 = "conversion_summary_dir" then
    match kv.2 with
    | KwVal.ostr s => { p with conversion_summary_dir := s }
    | _ => p
  else if kv.1 = "select_user_tf_ops" then
    match kv.2 with
    | KwVal.strs l => { p with select_user_tf_ops := l }
    | _ => p
  else if kv.1 = "operators_versions" then
    match kv.2 with
    | KwVal.opvers l => { p with operators_versions := l }
    | _ => p
  else
    p

/-- A build_toco_flags call with a list of keyword arguments: bind each
argument over the defaults, then run the function body. -/
def callBuildTocoFlags (kwargs : List (String × KwVal)) : TocoFlags :=
  build_toco_flags (kwargs.foldl applyKw {})

/- ===== helper lemmas ===== -/

theorem applyKw_unrecognized (p : TocoParams) (kv : String × KwVal)
    (h : kv.1 ∉ recognized_option_names) : applyKw p kv = p := by
  simp only [recognized_option_names, List.mem_cons, List.not_mem_nil,
    or_false, not_or] at h
  obtain ⟨h1, h2, h3, h4, h5, h6, h7, h8, h9, h10, h11, h12, h13, h14, h15,
    h16, h17⟩ := h
  simp [applyKw, h1, h2, h3, h4, h5, h6, h7, h8, h9, h10, h11, h12, h13,
    h14, h15, h16, h17]

/- ===== theorems for the claims ===== -/

/-- Claim C7: for every call to build_toco_flags with any concrete
inference_type and no explicit inference_input_type, the resulting flags
have inference_input_type equal to inference_type; when an explicit
inference_input_type is supplied, it is used instead. -/
theorem c7_inference_input_type_default (p : TocoParams) :
    (build_toco_flags p).inference_input_type =
      match p.inference_input_type with
      | none => (build_toco_flags p).inference_type
      | some t => convert_dtype_to_tflite_type t := by
  cases h : p.inference_input_type <;> simp [build_toco_flags, h]

/-- Claim C8: in build_toco_flags, if target_ops contains exactly the
SELECT_TF_OPS option then both enable_select_tf_ops and
force_select_tf_ops are set true in the resulting flags; if target_ops
contains both TFLITE_BUILTINS and SELECT_TF_OPS then enable_select_tf_ops
is true and force_select_tf_ops remains false. -/
theorem c8_select_tf_ops_flags (p : TocoParams)
    (hmem : OpsSet.SELECT_TF_OPS ∈ p.target_ops) :
    ((∀ x ∈ p.target_ops, x = OpsSet.SELECT_TF_OPS) →
      (build_toco_flags p).enable_select_tf_ops = true ∧
      (build_toco_flags p).force_select_tf_ops = true) ∧
    (OpsSet.TFLITE_BUILTINS ∈ p.target_ops →
      (build_toco_flags p).enable_select_tf_ops = true ∧
      (build_toco_flags p).force_select_tf_ops = false) := by
  have hne : p.target_ops ≠ [] := List.ne_nil_of_mem hmem
  constructor
  · intro hall
    constructor
    · simp [build_toco_flags, hne, hmem]
    · simp only [build_toco_flags]
      rw [if_neg (by simp [hne])]
      simp only [Bool.and_eq_true, List.all_eq_true]
      exact ⟨by simpa using hmem, fun x hx => by simpa using hall x hx⟩
  · intro hb
    constructor
    · simp [build_toco_flags, hne, hmem]
    · simp only [build_toco_flags]
      rw [if_neg (by simp [hne])]
      have : p.target_ops.all (fun o => o == OpsSet.SELECT_TF_OPS) = false := by
        rw [Bool.eq_false_iff]
        intro hall
        rw [List.all_eq_true] at hall
        have := hall OpsSet.TFLITE_BUILTINS hb
        simp at this
      simp [this]

/-- Witness for claim C8 at the two concrete target_ops scenarios of the
spec. -/
theorem c8_select_tf_ops_flags_witness :
    ((build_toco_flags
        { target_ops := [OpsSet.SELECT_TF_OPS] }).enable_select_tf_ops =
        true ∧
      (build_toco_flags
        { target_ops := [OpsSet.SELECT_TF_OPS] }).force_select_tf_ops =
        true) ∧
    ((build_toco_flags
        { target_ops := [OpsSet.TFLITE_BUILTINS,
            OpsSet.SELECT_TF_OPS] }).enable_select_tf_ops = true ∧
      (build_toco_flags
        { target_ops := [OpsSet.TFLITE_BUILTINS,
            OpsSet.SELECT_TF_OPS] }).force_select_tf_ops = false) :=
  ⟨(c8_select_tf_ops_flags { target_ops := [OpsSet.SELECT_TF_OPS] }
      (by decide)).1 (by decide),
    (c8_select_tf_ops_flags
      { target_ops := [OpsSet.TFLITE_BUILTINS, OpsSet.SELECT_TF_OPS] }
      (by decide)).2 (by decide)⟩

/-- Claim C9: every call to convert_saved_model dispatches with the
in-process MLIR converter enabled, so a SavedModel conversion never takes
the out-of-process subprocess-and-temporary-files path, regardless of the
configured binary. -/
theorem c9_saved_model_always_in_process (env : DispatchEnv)
    (s : SavedModelParams) (p : TocoParams) :
    (convert_saved_model env s p).usedInProcess = true ∧
    (convert_saved_model env s p).created = [] := by
  constructor <;> simp [convert_saved_model, toco_convert_protos]

/-- Claim C10: a build_toco_flags call with an extra keyword argument whose
name is not among the recognized option parameters returns the same flags
as the call without it: unrecognized options are silently accepted and have
no effect. -/
theorem c10_unrecognized_kwargs_ignored (l1 l2 : List (String × KwVal))
    (name : String) (v : KwVal) (h : name ∉ recognized_option_names) :
    callBuildTocoFlags (l1 ++ (name, v) :: l2) =
      callBuildTocoFlags (l1 ++ l2) := by
  unfold callBuildTocoFlags
  congr 1
  rw [List.foldl_append, List.foldl_append, List.foldl_cons,
    applyKw_unrecognized _ (name, v) h]

/-- Witness for claim C10 at the concrete unrecognized keyword
"bogus_option". -/
theorem c10_unrecognized_kwargs_ignored_witness :
    "bogus_option" ∉ recognized_option_names ∧
    callBuildTocoFlags [("bogus_option", KwVal.b true)] =
      callBuildTocoFlags [] :=
  ⟨by decide,
    c10_unrecognized_kwargs_ignored [] [] "bogus_option" (KwVal.b true)
      (by decide)⟩

/-- A concrete dispatch environment taking the out-of-process path with a
successful backend run. -/
def envC1 : DispatchEnv :=
  { toco_from_proto_bin := "toco_from_protos"
    find_executable_ok := true
    wrapped_toco_convert := Except.ok ""
    proc_exitcode := 0
    proc_stdout := none
    output_file_content := "converted" }

/-- Claim C1 (refuting evidence): on a successful out-of-process dispatch,
toco_convert_protos creates the debug-info temporary file but the finally
block's cleanup list omits it, so it is still present when the call
returns; the claim that all temporary files are deleted on every exit path
fails. -/
theorem c1_debug_info_tempfile_leaked :
    (toco_convert_protos envC1 "model-flags" "toco-flags" (some "graphdef")
      (some "debug-info") false).result = Except.ok "converted" ∧
    TmpFile.debugF ∈ (toco_convert_protos envC1 "model-flags" "toco-flags"
      (some "graphdef") (some "debug-info") false).created ∧
    (toco_convert_protos envC1 "model-flags" "toco-flags" (some "graphdef")
      (some "debug-info") false).remaining = [TmpFile.debugF] := by
  decide

/-- The conversion parameters of the C2 failing input: quantized inference
type, post-training quantization off, and no quantized_input_stats. -/
def pC2 : ConvertParams := { inference_type := DType.uint8 }

/-- The single input tensor of the C2 failing input. -/
def tC2 : InputTensor :=
  { name := "in", dtype := DType.float32, shape := some [some 1] }

/-- A concrete dispatch environment for the C2 graph-def call (the error is
raised before dispatch, so its contents are immaterial). -/
def envC2 : DispatchEnv :=
  { toco_from_proto_bin := "toco_from_protos"
    find_executable_ok := true
    wrapped_toco_convert := Except.ok ""
    proc_exitcode := 0
    proc_stdout := none
    output_file_content := "" }

/-- Claim C2 (refuting evidence): with a quantized inference type, no
post-training quantization and absent quantized_input_stats, the
quantization invariant requires stats, yet build_toco_convert_protos
returns successfully with the input array's mean and std left unset; only
toco_convert_graph_def raises the ValueError. -/
theorem c2_missing_quantized_stats_not_rejected :
    (∃ mf tf d,
      build_toco_convert_protos [tC2] [⟨"out"⟩] pC2 = Except.ok (mf, tf, d) ∧
      requires_input_stats tf = true ∧
      mf.input_arrays.map (fun a => (a.mean_value, a.std_value)) =
        [(none, none)]) ∧
    toco_convert_graph_def envC2 "graphdef" [("in", [1])] ["out"] false pC2 =
      Except.error (PyError.valueError quantized_stats_required_msg) := by
  exact ⟨⟨_, _, _, rfl, rfl, rfl⟩, rfl⟩

/-- Claim C3: in the out-of-process path, a zero backend exit code returns
exactly the bytes of the reserved output file, and a nonzero exit code
raises a ConverterError whose message contains the captured combined
stdout/stderr text. -/
theorem c3_backend_exit_code_result (env : DispatchEnv) (m t i : String)
    (dbg : Option String)
    (hbin : env.toco_from_proto_bin ≠ "")
    (hfound : env.find_executable_ok = true) :
    (env.proc_exitcode = 0 →
      (toco_convert_protos env m t (some i) dbg false).result =
        Except.ok env.output_file_content) ∧
    (env.proc_exitcode ≠ 0 →
      ∃ pre post,
        (toco_convert_protos env m t (some i) dbg false).result =
          Except.error (PyError.converterError
            (pre ++ (try_convert_to_unicode env.proc_stdout ++ post)))) := by
  have hc : ¬(false = true ∨ env.toco_from_proto_bin = "") := by
    simp [hbin]
  have hf : ¬(env.find_executable_ok = false) := by
    simp [hfound]
  constructor
  · intro he
    simp [toco_convert_protos, hc, hf, he, hbin]
  · intro he
    refine ⟨"See console for info.\n",
      "\n" ++ (try_convert_to_unicode none ++ "\n"), ?_⟩
    simp [toco_convert_protos, hc, hf, he, hbin]

/-- A concrete environment discharging the hypotheses of C3. -/
def envC3 : DispatchEnv :=
  { toco_from_proto_bin := "toco_from_protos"
    find_executable_ok := true
    wrapped_toco_convert := Except.ok ""
    proc_exitcode := 0
    proc_stdout := some "LOG"
    output_file_content := "outbytes" }

/-- Witness for claim C3 at a concrete environment with exit code 0. -/
theorem c3_backend_exit_code_result_witness :
    envC3.toco_from_proto_bin ≠ "" ∧
    envC3.find_executable_ok = true ∧
    (toco_convert_protos envC3 "m" "t" (some "g") none false).result =
      Except.ok envC3.output_file_content :=
  ⟨by decide, rfl,
    (c3_backend_exit_code_result envC3 "m" "t" "g" none (by decide) rfl).1
      rfl⟩

/-- Claim C4: toco_convert_protos uses the in-process backend exactly when
the MLIR converter is enabled or no out-of-process binary path is
configured; on that path an in-process exception is re-raised as a
ConverterError with the original message and a successful result is the
backend's bytes unchanged. -/
theorem c4_in_process_path (env : DispatchEnv) (m t : String)
    (inp dbg : Option String) (mlir : Bool) :
    ((toco_convert_protos env m t inp dbg mlir).usedInProcess = true ↔
      (mlir = true ∨ env.toco_from_proto_bin = "")) ∧
    ((mlir = true ∨ env.toco_from_proto_bin = "") →
      (toco_convert_protos env m t inp dbg mlir).result =
        (match env.wrapped_toco_convert with
         | Except.ok b => Except.ok b
         | Except.error e => Except.error (PyError.converterError e))) := by
  by_cases hc : (mlir = true ∨ env.toco_from_proto_bin = "")
  · constructor
    · simp [toco_convert_protos, hc]
    · intro _
      simp [toco_convert_protos, hc]
  · have hfalse :
        (toco_convert_protos env m t inp dbg mlir).usedInProcess = false := by
      by_cases hf : env.find_executable_ok = false
      · simp [toco_convert_protos, hc, hf]
      · cases inp with
        | none => simp [toco_convert_protos, hc, hf]
        | some s =>
          by_cases he : env.proc_exitcode = 0 <;>
            simp [toco_convert_protos, hc, hf, he]
    exact ⟨by simp [hfalse, hc], fun h => absurd h hc⟩

/-- A concrete environment for the C4 witness: binary configured but the
MLIR converter explicitly enabled. -/
def envC4 : DispatchEnv :=
  { toco_from_proto_bin := "toco_from_protos"
    find_executable_ok := true
    wrapped_toco_convert := Except.error "backend failure message"
    proc_exitcode := 0
    proc_stdout := none
    output_file_content := "" }

/-- Witness for claim C4 at a concrete environment: with the MLIR converter
enabled the in-process path is taken and the backend exception becomes a
ConverterError carrying its message. -/
theorem c4_in_process_path_witness :
    (toco_convert_protos envC4 "m" "t" (some "g") none true).usedInProcess =
      true ∧
    (toco_convert_protos envC4 "m" "t" (some "g") none true).result =
      Except.error (PyError.converterError "backend failure message") :=
  ⟨(c4_in_process_path envC4 "m" "t" (some "g") none true).1.mpr
      (Or.inl rfl),
    (c4_in_process_path envC4 "m" "t" (some "g") none true).2 (Or.inl rfl)⟩

/-- Claim C5: when the out-of-process path is required but the binary is
not found on the search path at dispatch time, toco_convert_protos raises
a ConverterError containing search-path guidance before creating any
temporary file or process. -/
theorem c5_missing_binary_dispatch_error (env : DispatchEnv) (m t : String)
    (i dbg : Option String)
    (hbin : env.toco_from_proto_bin ≠ "")
    (hfound : env.find_executable_ok = false) :
    (toco_convert_protos env m t i dbg false).result =
      Except.error (PyError.converterError toco_missing_binary_msg) ∧
    (toco_convert_protos env m t i dbg false).created = [] ∧
    ∃ pre post, toco_missing_binary_msg = pre ++ ("is in your path" ++ post) := by
  have hc : ¬(false = true ∨ env.toco_from_proto_bin = "") := by
    simp [hbin]
  refine ⟨by simp [toco_convert_protos, hc, hfound, hbin],
    by simp [toco_convert_protos, hc, hfound, hbin], ?_⟩
  exact ⟨"Could not find toco_from_protos binary, make sure\n" ++
    "your virtualenv bin directory or pip local bin directory ",
    ".\nIn particular, if you have installed TensorFlow with --user, " ++
    "make sure you\nadd the install directory to your path.\n\n" ++
    "For example:\nLinux: export PATH=$PATH:~/.local/bin/\n" ++
    "Mac: export PATH=$PATH:~/Library/Python/<version#>/bin\n\n" ++
    "Alternative, use virtualenv.", by decide⟩

/-- A concrete environment discharging the hypotheses of C5. -/
def envC5 : DispatchEnv :=
  { toco_from_proto_bin := "toco_from_protos"
    find_executable_ok := false
    wrapped_toco_convert := Except.ok ""
    proc_exitcode := 0
    proc_stdout := none
    output_file_content := "" }

/-- Witness for claim C5 at a concrete environment whose binary is missing
from the search path. -/
theorem c5_missing_binary_dispatch_error_witness :
    envC5.toco_from_proto_bin ≠ "" ∧
    envC5.find_executable_ok = false ∧
    (toco_convert_protos envC5 "m" "t" (some "g") none false).result =
      Except.error (PyError.converterError toco_missing_binary_msg) ∧
    (toco_convert_protos envC5 "m" "t" (some "g") none false).created = [] :=
  ⟨by decide, rfl,
    (c5_missing_binary_dispatch_error envC5 "m" "t" (some "g") none
      (by decide) rfl).1,
    (c5_missing_binary_dispatch_error envC5 "m" "t" (some "g") none
      (by decide) rfl).2.1⟩

theorem buildInputArrays_get (toco : TocoFlags) (p : ConvertParams) :
    ∀ (inputs : List InputTensor) (idx : Nat) (arrs : List InputArray),
      buildInputArrays toco p idx inputs = Except.ok arrs →
      ∀ (i : Nat) (t : InputTensor), inputs.get? i = some t →
        ∃ arr, arrs.get? i = some arr ∧
          buildInputArray toco p (idx + i) t = Except.ok arr := by
  intro inputs
  induction inputs with
  | nil =>
    intro idx arrs h i t ht
    simp at ht
  | cons hd tl ih =>
    intro idx arrs h i t ht
    rw [buildInputArrays] at h
    cases h1 : buildInputArray toco p idx hd with
    | error e => rw [h1] at h; simp at h
    | ok arr =>
      rw [h1] at h
      cases h2 : buildInputArrays toco p (idx + 1) tl with
      | error e => rw [h2] at h; simp at h
      | ok arrs2 =>
        rw [h2] at h
        simp only [Except.ok.injEq] at h
        subst h
        cases i with
        | zero =>
          simp only [List.get?_cons_zero, Option.some.injEq] at ht
          subst ht
          exact ⟨arr, rfl, by simpa using h1⟩
        | succ j =>
          simp only [List.get?_cons_succ] at ht
          obtain ⟨arr2, ha, hb⟩ := ih (idx + 1) arrs2 h2 j t ht
          refine ⟨arr2, by simpa using ha, ?_⟩
          rw [show idx + (j + 1) = idx + 1 + j by omega]
          exact hb

/-- Claim C6: for every input tensor processed by build_toco_convert_protos
(with no input_shapes override, so the tensor's own shape is used): known
rank yields unknown_rank false and dims equal to the tensor's dimensions
with every unset dimension replaced by -1; unknown rank yields unknown_rank
true and an empty dims list. -/
theorem c6_input_shape_translation (input_tensors : List InputTensor)
    (output_tensors : List OutTensor) (p : ConvertParams)
    (mf : ModelFlags) (tf : TocoFlags) (d : Option String)
    (hshapes : p.input_shapes = none)
    (hbuild : build_toco_convert_protos input_tensors output_tensors p =
      Except.ok (mf, tf, d)) :
    ∀ (i : Nat) (t : InputTensor), input_tensors.get? i = some t →
      ∃ arr, mf.input_arrays.get? i = some arr ∧
        (t.shape = none →
          arr.shape.unknown_rank = true ∧ arr.shape.dims = []) ∧
        (∀ ds, t.shape = some ds →
          arr.shape.unknown_rank = false ∧
          arr.shape.dims = ds.map (fun dim => dim.getD (-1))) := by
  intro i t ht
  rw [build_toco_convert_protos] at hbuild
  cases h0 : buildInputArrays (build_toco_flags p.toTocoParams) p 0
      input_tensors with
  | error e => rw [h0] at hbuild; simp at hbuild
  | ok arrs =>
    rw [h0] at hbuild
    simp only [Except.ok.injEq, Prod.mk.injEq] at hbuild
    obtain ⟨hmf, -, -⟩ := hbuild
    obtain ⟨arr, ha, hb⟩ :=
      buildInputArrays_get (build_toco_flags p.toTocoParams) p input_tensors
        0 arrs h0 i t ht
    refine ⟨arr, by rw [← hmf]; simpa using ha, ?_⟩
    rw [buildInputArray] at hb
    cases hs : stats_for (build_toco_flags p.toTocoParams) p (0 + i) with
    | error e => rw [hs] at hb; simp at hb
    | ok stats =>
      rw [hs] at hb
      have hsf : shape_for p (0 + i) t = Except.ok t.shape := by
        simp [shape_for, hshapes]
      rw [hsf] at hb
      simp only [Except.ok.injEq] at hb
      subst hb
      constructor
      · intro hnone
        simp [shape_proto_of, hnone]
      · intro ds hsome
        simp [shape_proto_of, hsome]

/-- The input tensor of the C6 witness: known rank with an unset middle
dimension. -/
def tC6 : InputTensor :=
  { name := "x", dtype := DType.float32, shape := some [some 1, none, some 3] }

/-- The conversion parameters of the C6 witness (all defaults). -/
def pC6 : ConvertParams := {}

/-- The ModelFlags built for the C6 witness. -/
def mfC6 : ModelFlags :=
  match build_toco_convert_protos [tC6] [] pC6 with
  | Except.ok (m, _, _) => m
  | Except.error _ => {}

/-- The TocoFlags built for the C6 witness. -/
def tfC6 : TocoFlags :=
  match build_toco_convert_protos [tC6] [] pC6 with
  | Except.ok (_, t, _) => t
  | Except.error _ => {}

/-- Witness for claim C6 at a concrete single-tensor build. -/
theorem c6_input_shape_translation_witness :
    pC6.input_shapes = none ∧
    build_toco_convert_protos [tC6] [] pC6 = Except.ok (mfC6, tfC6, none) ∧
    ∃ arr, mfC6.input_arrays.get? 0 = some arr ∧
      (tC6.shape = none →
        arr.shape.unknown_rank = true ∧ arr.shape.dims = []) ∧
      (∀ ds, tC6.shape = some ds →
        arr.shape.unknown_rank = false ∧
        arr.shape.dims = ds.map (fun dim => dim.getD (-1))) :=
  ⟨rfl, rfl,
    c6_input_shape_translation [tC6] [] pC6 mfC6 tfC6 none rfl rfl 0 tC6 rfl⟩
